import Mathlib

/-!
Shallow embedding of the command-execution subsystem of
`src/tools/GCloudTool` (GCloudApiClient.ts, operations.ts, types.ts).

Pure string manipulation (argument parsing, line splitting, the
authentication-marker scan) is translated directly.  The event-driven
part of `runCommand` (timeout timer, `close` / `error` process events,
`cancelExecution` calls, stream `data` chunks) is embedded as a step
function on an explicit run state, folded over a list of events; the
promise is modelled by a `settled` field where the first settlement
(resolve or reject) wins, exactly as in JavaScript.  External runtime
facilities (`existsSync`, `JSON.parse`, process ids, dates) enter as
oracle parameters; `Date` fields are modelled only by presence flags.
-/

/-- One character of the JavaScript regex class `\s` (the subset that can
occur in command strings). -/
def isWsChar (c : Char) : Bool :=
  c = ' ' || c = '\t' || c = '\n' || c = '\r' || c = '\x0b' || c = '\x0c'

/-- Worker for `splitWs`: `cur` is the reversed current token, `inWs`
records whether the previous character was whitespace (so that a run of
whitespace produces a single separation), `acc` the reversed output. -/
def splitWsAux : List Char → List Char → Bool → List String → List String
  | [], cur, _, acc => (String.mk cur.reverse :: acc).reverse
  | c :: cs, cur, inWs, acc =>
    if isWsChar c then
      if inWs then splitWsAux cs cur true acc
      else splitWsAux cs [] true (String.mk cur.reverse :: acc)
    else splitWsAux cs (c :: cur) false acc

/-- JavaScript `s.split(/\s+/)`: splits on maximal whitespace runs; a
leading or trailing run contributes an empty first or last element. -/
def splitWs (s : String) : List String :=
  splitWsAux s.toList [] false []

/-- JavaScript `s.replace(/^gcloud\s+/, '')`: if the string starts with
the literal `gcloud` followed by at least one whitespace character, drop
that match (the whitespace run being greedy); otherwise leave it alone. -/
def stripGcloudLead (s : String) : String :=
  let cs := s.toList
  if cs.take 6 = "gcloud".toList then
    match cs.drop 6 with
    | c :: rest => if isWsChar c then String.mk (rest.dropWhile isWsChar) else s
    | [] => s
  else s

/-- JavaScript `s.startsWith(pre)`. -/
def jsStartsWith (s pre : String) : Bool :=
  pre.toList.isPrefixOf s.toList

/-- JavaScript `s.toLowerCase()` (ASCII-faithful, which covers the
authentication markers). -/
def jsToLower (s : String) : String :=
  String.mk (s.toList.map Char.toLower)

/-- Drop a single trailing carriage return, as the `\r?` in the line
delimiter regex does. -/
def stripCR (s : String) : String :=
  match s.toList.getLast? with
  | some c => if c = '\r' then String.mk s.toList.dropLast else s
  | none => s

/-- Split a character stream at every newline. -/
def splitOnNl : List Char → List Char → List String
  | [], cur => [String.mk cur.reverse]
  | c :: cs, cur =>
    if c = '\n' then String.mk cur.reverse :: splitOnNl cs []
    else splitOnNl cs (c :: cur)

/-- JavaScript `data.toString().split(/\r?\n/).filter(Boolean)` used by
`handleProcessOutput`: split a chunk into lines and drop empty ones. -/
def splitLines (s : String) : List String :=
  ((splitOnNl s.toList []).map stripCR).filter (· ≠ "")

/-- Worker for `containsSub`: the pattern is a prefix of some suffix. -/
def containsSubAux (pat : List Char) : List Char → Bool
  | [] => pat.isPrefixOf []
  | c :: cs => pat.isPrefixOf (c :: cs) || containsSubAux pat cs

/-- JavaScript `s.includes(pat)`: substring containment. -/
def containsSub (s pat : String) : Bool :=
  containsSubAux pat.toList s.toList

/-- JavaScript `a || b` on an optional number: `none` and `0` are falsy. -/
def jsOr (a : Option Nat) (b : Nat) : Nat :=
  match a with
  | some n => if n = 0 then b else n
  | none => b

/-- `ExecutionStatus` from types.ts. -/
inductive ExecutionStatus where
  | Pending
  | Running
  | Completed
  | Failed
  | Cancelled
deriving DecidableEq, Repr

/-- `GCloudCommand` from types.ts (the CommandSpec).  `environment` is a
literal association list; zod-level validation is not part of this layer. -/
structure GCloudCommand where
  command : String
  args : List String
  workingDirectory : Option String := none
  environment : List (String × String) := []
  timeout : Option Nat := none
  requiresInteraction : Bool := false
  supportsJson : Bool := false
deriving DecidableEq, Repr

/-- `CommandExecution` from types.ts.  `id`, `startTime` are produced by
external runtime facilities and carry no logic; `endTime` is modelled by
the flag `endTimeSet` recording whether it has been assigned. -/
structure CommandExecution where
  command : GCloudCommand
  status : ExecutionStatus
  endTimeSet : Bool := false
  exitCode : Option Int := none
  stdout : List String := []
  stderr : List String := []
  cancelled : Bool := false
  pid : Option Nat := none
deriving DecidableEq, Repr

/-- `GCloudError` from types.ts. -/
structure GCloudError where
  message : String
  exitCode : Option Int := none
  stderr : List String := []
  authenticationRequired : Bool := false
  suggestions : List String := []
deriving DecidableEq, Repr

/-- The gcloud section of the global configuration consulted by
`getGCloudConfig` (fields used by `runCommand`). -/
structure GCloudConfig where
  preferJsonOutput : Bool := false
  defaultTimeout : Option Nat := none
deriving DecidableEq, Repr

/-- `GCloudApiClient.DEFAULT_TIMEOUT`. -/
def DEFAULT_TIMEOUT : Nat := 300000

/-- The effective timeout of `runCommand`:
`execution.command.timeout || config.defaultTimeout || DEFAULT_TIMEOUT`. -/
def effTimeout (cmd : GCloudCommand) (cfg : GCloudConfig) : Nat :=
  jsOr cmd.timeout (jsOr cfg.defaultTimeout DEFAULT_TIMEOUT)

/-- The message of the `GCloudError` rejected when the timeout fires. -/
def timeoutMessage (t : Nat) : String :=
  "Command timed out after " ++ toString t ++ "ms"

/-- The authentication marker list of `checkForAuthError`. -/
def authErrorPatterns : List String :=
  ["not authorized", "not authenticated", "authentication required",
   "please run", "gcloud auth login", "credentials not found",
   "no credentials"]

/-- `GCloudApiClient.checkForAuthError`: some stderr line, lower-cased,
contains some marker. -/
def checkForAuthError (stderr : List String) : Bool :=
  stderr.any fun line =>
    authErrorPatterns.any fun pat => containsSub (jsToLower line) pat

/-- The two remediation suggestions attached to the authentication
`GCloudError`. -/
def authSuggestions : List String :=
  ["Run \"gcloud auth login\" to authenticate",
   "Run \"gcloud auth application-default login\" for application default credentials"]

/-- The JSON-format injection at the top of `runCommand`: when the spec
supports JSON and either the configuration prefers JSON output or the
spec's declared `args` contain `--format=json`, append `--format=json`
to the parsed argument list unless some argument already starts with
`--format=`. -/
def applyJsonFormat (cmd : GCloudCommand) (preferJsonOutput : Bool)
    (args : List String) : List String :=
  if cmd.supportsJson && (preferJsonOutput || cmd.args.contains "--format=json") then
    if args.any (fun a => jsStartsWith a "--format=") then args
    else args ++ ["--format=json"]
  else args

/-- The argument list actually handed to `spawn`: the command string with
its `gcloud ` lead removed, split on whitespace, then JSON injection. -/
def prepareArgs (cmd : GCloudCommand) (cfg : GCloudConfig) : List String :=
  applyJsonFormat cmd cfg.preferJsonOutput (splitWs (stripGcloudLead cmd.command))

/-- The options object passed to `spawn` in `runCommand`, together with
the executable name and argument list.  `shell := true` records the
`shell: true` entry of the options literal. -/
structure SpawnCall where
  cmd : String
  args : List String
  shell : Bool
  cwd : Option String := none
  envOverrides : List (String × String) := []
deriving DecidableEq, Repr

/-- Settlement of the promise returned by `runCommand`: either resolved
(with the execution record, held by reference) or rejected with a
`GCloudError`. -/
inductive Settle where
  | resolved
  | rejected (err : GCloudError)
deriving DecidableEq, Repr

/-- First settlement wins, as for a JavaScript promise. -/
def trySettle (s : Option Settle) (v : Settle) : Option Settle :=
  match s with
  | some w => some w
  | none => some v

/-- The asynchronous events that can reach a running execution: the
timeout timer firing, a stream `data` chunk, the process `close` event
(its argument is the exit code, `none` for a signal termination), the
process `error` event, and a call to `cancelExecution` (whose Boolean
records whether `process.kill` succeeds). -/
inductive Event where
  | timeout
  | stdoutData (chunk : String)
  | stderrData (chunk : String)
  | close (code : Option Int)
  | procError (msg : String)
  | cancel (killOk : Bool)
deriving DecidableEq, Repr

/-- State of one `runCommand` promise between events.  `timeoutActive`
is true while the timer is set and neither fired nor cleared; `closed`
records that the `close` event already fired (Node emits it at most
once); `settled` is the promise settlement; `statusLog` is ghost state
recording, in order, every value assigned to `execution.status`. -/
structure RunState where
  exec : CommandExecution
  timeoutActive : Bool
  closed : Bool
  settled : Option Settle
  statusLog : List ExecutionStatus
deriving DecidableEq, Repr

/-- `GCloudApiClient.cancelExecution`: a no-op returning `false` unless
the execution is `Running` with a pid; otherwise sends SIGTERM (`killOk`
records whether `process.kill` throws) and on success sets the cancelled
flag, the `Cancelled` status and the end time. -/
def cancelExecution (killOk : Bool) (e : CommandExecution) :
    Bool × CommandExecution :=
  if e.status ≠ ExecutionStatus.Running ∨ e.pid = none then (false, e)
  else if killOk then
    (true, { e with cancelled := true, status := ExecutionStatus.Cancelled,
                    endTimeSet := true })
  else (false, e)

/-- One event handler of `runCommand` (plus `cancelExecution`, which
mutates the same record).  `t` is the effective timeout, used only in
the rejection message. -/
def step (t : Nat) (s : RunState) : Event → RunState
  | Event.timeout =>
    if s.timeoutActive then
      { s with
        timeoutActive := false
        exec := { s.exec with status := ExecutionStatus.Failed }
        statusLog := s.statusLog ++ [ExecutionStatus.Failed]
        settled := trySettle s.settled (Settle.rejected { message := timeoutMessage t }) }
    else s
  | Event.stdoutData chunk =>
    { s with exec := { s.exec with stdout := s.exec.stdout ++ splitLines chunk } }
  | Event.stderrData chunk =>
    { s with exec := { s.exec with stderr := s.exec.stderr ++ splitLines chunk } }
  | Event.close code =>
    if s.closed then s
    else
      let e1 := { s.exec with endTimeSet := true, exitCode := some (code.getD 0) }
      if e1.cancelled then
        { s with
          closed := true, timeoutActive := false
          exec := { e1 with status := ExecutionStatus.Cancelled }
          statusLog := s.statusLog ++ [ExecutionStatus.Cancelled]
          settled := trySettle s.settled Settle.resolved }
      else if code = some 0 then
        { s with
          closed := true, timeoutActive := false
          exec := { e1 with status := ExecutionStatus.Completed }
          statusLog := s.statusLog ++ [ExecutionStatus.Completed]
          settled := trySettle s.settled Settle.resolved }
      else
        let e2 := { e1 with status := ExecutionStatus.Failed }
        if checkForAuthError e2.stderr then
          { s with
            closed := true, timeoutActive := false, exec := e2
            statusLog := s.statusLog ++ [ExecutionStatus.Failed]
            settled := trySettle s.settled (Settle.rejected
              { message := "Authentication required", exitCode := code,
                stderr := e2.stderr, authenticationRequired := true,
                suggestions := authSuggestions }) }
        else
          { s with
            closed := true, timeoutActive := false, exec := e2
            statusLog := s.statusLog ++ [ExecutionStatus.Failed]
            settled := trySettle s.settled Settle.resolved }
  | Event.procError msg =>
    { s with
      timeoutActive := false
      exec := { s.exec with status := ExecutionStatus.Failed, endTimeSet := true }
      statusLog := s.statusLog ++ [ExecutionStatus.Failed]
      settled := trySettle s.settled (Settle.rejected
        { message := "Process error: " ++ msg }) }
  | Event.cancel killOk =>
    let r := cancelExecution killOk s.exec
    if r.1 then
      { s with exec := r.2, statusLog := s.statusLog ++ [ExecutionStatus.Cancelled] }
    else { s with exec := r.2 }

/-- The execution record built at the top of `executeCommand` (before
`runCommand` is invoked). -/
def initExecution (cmd : GCloudCommand) : CommandExecution :=
  { command := cmd, status := ExecutionStatus.Pending }

/-- The synchronous part of `runCommand` (argument preparation, spawn,
pid and `Running` assignment, timer arming) followed by the given event
sequence.  Returns the final run state and the recorded spawn call. -/
def runCommandTrace (cmd : GCloudCommand) (cfg : GCloudConfig) (pid : Nat)
    (events : List Event) : RunState × SpawnCall :=
  let args := prepareArgs cmd cfg
  let call : SpawnCall :=
    { cmd := "gcloud", args := args, shell := true,
      cwd := cmd.workingDirectory, envOverrides := cmd.environment }
  let s0 : RunState :=
    { exec := { initExecution cmd with pid := some pid,
                                        status := ExecutionStatus.Running }
      timeoutActive := true, closed := false, settled := none
      statusLog := [ExecutionStatus.Running] }
  (events.foldl (step (effTimeout cmd cfg)) s0, call)

/-- Outcome of `executeCommand` as seen by its caller: a thrown
`GCloudError`, a returned execution record, or (for an event trace that
never settles the promise) still pending. -/
inductive ExecOutcome where
  | thrown (err : GCloudError)
  | returned (e : CommandExecution)
  | pending
deriving DecidableEq, Repr

/-- Side-effecting checks performed by `executeCommand` before spawning,
in order. -/
inductive ExecAction where
  | availabilityCheck
  | workingDirCheck
deriving DecidableEq, Repr

/-- Result of the `executeCommand` model: the caller-visible outcome,
the pre-spawn checks that actually ran, and the spawn call if one was
made. -/
structure ExecRun where
  outcome : ExecOutcome
  actions : List ExecAction
  spawned : Option SpawnCall := none
deriving DecidableEq, Repr

/-- The working-directory precondition of `executeCommand`:
`command.workingDirectory && !existsSync(command.workingDirectory)`
(an empty string is falsy, so it skips the check). -/
def wdMissing (dirExists : String → Bool) (cmd : GCloudCommand) : Bool :=
  match cmd.workingDirectory with
  | some w => decide (w ≠ "") && !dirExists w
  | none => false

/-- The `GCloudError` thrown for a command string without the `gcloud `
lead. -/
def prefixError : GCloudError :=
  { message := "Command must start with \"gcloud\"" }

/-- The `GCloudError` thrown when the gcloud binary is unavailable. -/
def sdkMissingError : GCloudError :=
  { message := "Google Cloud SDK not found. Please install it from https://cloud.google.com/sdk/docs/install",
    suggestions := ["Install Google Cloud SDK", "Add gcloud to your PATH"] }

/-- `GCloudApiClient.executeCommand`: command-string validation, binary
availability check, working-directory check, then `runCommand` driven by
the event trace.  A `GCloudError` rejection of `runCommand` is rethrown
unchanged by the surrounding catch; a resolution returns the execution
record. -/
def executeCommandModel (cmd : GCloudCommand) (gcloudAvailable : Bool)
    (dirExists : String → Bool) (cfg : GCloudConfig) (pid : Nat)
    (events : List Event) : ExecRun :=
  if !(jsStartsWith cmd.command "gcloud ") then
    { outcome := ExecOutcome.thrown prefixError, actions := [] }
  else if !gcloudAvailable then
    { outcome := ExecOutcome.thrown sdkMissingError,
      actions := [ExecAction.availabilityCheck] }
  else if wdMissing dirExists cmd then
    { outcome := ExecOutcome.thrown
        { message := "Working directory does not exist: " ++
            (cmd.workingDirectory.getD "") },
      actions := [ExecAction.availabilityCheck, ExecAction.workingDirCheck] }
  else
    let r := runCommandTrace cmd cfg pid events
    { outcome :=
        match r.1.settled with
        | some (Settle.rejected err) => ExecOutcome.thrown err
        | some Settle.resolved => ExecOutcome.returned r.1.exec
        | none => ExecOutcome.pending
      actions := [ExecAction.availabilityCheck] ++
        (match cmd.workingDirectory with
         | some w => if w ≠ "" then [ExecAction.workingDirCheck] else []
         | none => [])
      spawned := some r.2 }

/-- One credential record of the `gcloud auth list --format=json`
output. -/
structure Account where
  account : String
  status : String
deriving DecidableEq, Repr

/-- `AuthenticationStatus` from types.ts (`lastChecked` is a `Date`
produced externally and is omitted). -/
structure AuthenticationStatus where
  isAuthenticated : Bool
  activeAccount : Option String := none
  availableAccounts : List String
  defaultProject : Option String := none
deriving DecidableEq, Repr

/-- The snapshot returned by `getAuthenticationStatus` on every failure
path. -/
def notAuthSnapshot : AuthenticationStatus :=
  { isAuthenticated := false, availableAccounts := [] }

/-- `GCloudApiClient.getAuthenticationStatus`.  Its two inner
`executeCommand` calls enter as settled outcomes (`Except.error` models
a thrown `GCloudError`, caught by the surrounding try and turned into
the fallback snapshot).  `JSON.parse` on the two joined stdouts enters
as the oracles `parseAccounts` (the account-array shape read by the
code) and `parseProject` (the string shape), `none` meaning the parse
throws. -/
def getAuthStatusModel (parseAccounts : String → Option (List Account))
    (parseProject : String → Option String)
    (o1 o2 : Except GCloudError CommandExecution) : AuthenticationStatus :=
  match o1 with
  | Except.error _ => notAuthSnapshot
  | Except.ok e1 =>
    if e1.status ≠ ExecutionStatus.Completed then notAuthSnapshot
    else
      match parseAccounts (String.join e1.stdout) with
      | none => notAuthSnapshot
      | some accounts =>
        let activeAccount := (accounts.find? (·.status = "ACTIVE")).map (·.account)
        match o2 with
        | Except.error _ => notAuthSnapshot
        | Except.ok e2 =>
          let defaultProject : Option String :=
            if e2.status = ExecutionStatus.Completed then
              match parseProject (String.join e2.stdout) with
              | some p => if p = "(unset)" then none else some p
              | none => none
            else none
          { isAuthenticated := decide (accounts.length > 0)
            activeAccount := activeAccount
            availableAccounts := accounts.map (·.account)
            defaultProject := defaultProject }

/-- A fixed valid command spec used as concrete input. -/
def cmd0 : GCloudCommand :=
  { command := "gcloud projects list", args := ["projects", "list"] }

/-- A fixed valid command spec with an explicit timeout. -/
def cmdT : GCloudCommand :=
  { command := "gcloud projects list", args := ["projects", "list"],
    timeout := some 5000 }

/-- A fixed run state as left by the synchronous part of `runCommand`. -/
def rs0 : RunState :=
  { exec :=
      { command := cmd0, status := ExecutionStatus.Running, pid := some 7 },
    timeoutActive := true, closed := false, settled := none,
    statusLog := [ExecutionStatus.Running] }

/-- C9: a command string that does not start with `gcloud ` makes
`executeCommand` throw a `GCloudError` synchronously: no binary
availability check runs, no working-directory check runs, and no
subprocess is spawned, whatever else the environment would do. -/
theorem C9_invalid_lead_throws (cmd : GCloudCommand) (avail : Bool)
    (dirExists : String → Bool) (cfg : GCloudConfig) (pid : Nat)
    (events : List Event)
    (h : jsStartsWith cmd.command "gcloud " = false) :
    executeCommandModel cmd avail dirExists cfg pid events =
      { outcome := ExecOutcome.thrown prefixError, actions := [],
        spawned := none } := by
  simp [executeCommandModel, h]

/-- Witness for C9 at the concrete command string `ls -la`. -/
theorem C9_witness :
    jsStartsWith "ls -la" "gcloud " = false ∧
    executeCommandModel { command := "ls -la", args := [] } true
        (fun _ => true) {} 0 [] =
      { outcome := ExecOutcome.thrown prefixError, actions := [],
        spawned := none } :=
  ⟨by decide,
   C9_invalid_lead_throws { command := "ls -la", args := [] } true
     (fun _ => true) {} 0 [] (by decide)⟩

/-- C7: cancelling an execution whose status is already terminal
(`Completed`, `Failed` or `Cancelled`) is a no-op: `cancelExecution`
returns `false`, the record (status and all other fields) is unchanged,
no error arises, and iterating the call any number of times still leaves
the record unchanged. -/
theorem C7_cancel_terminal_noop (e : CommandExecution) (k : Bool)
    (h : e.status = ExecutionStatus.Completed ∨
         e.status = ExecutionStatus.Failed ∨
         e.status = ExecutionStatus.Cancelled) :
    cancelExecution k e = (false, e) ∧
    ∀ n : Nat, (fun x => (cancelExecution k x).2)^[n] e = e := by
  have hne : e.status ≠ ExecutionStatus.Running := by
    rcases h with h | h | h <;> simp [h]
  have h1 : cancelExecution k e = (false, e) := by
    simp [cancelExecution, hne]
  refine ⟨h1, fun n => ?_⟩
  induction n with
  | zero => rfl
  | succ n ih =>
    rw [Function.iterate_succ_apply]
    simpa [h1] using ih

/-- Witness for C7 at a concrete completed execution, iterated three
times. -/
theorem C7_witness :
    ({ command := cmd0, status := ExecutionStatus.Completed,
       pid := some 7 : CommandExecution }.status = ExecutionStatus.Completed ∨
     ({ command := cmd0, status := ExecutionStatus.Completed,
        pid := some 7 : CommandExecution }).status = ExecutionStatus.Failed ∨
     ({ command := cmd0, status := ExecutionStatus.Completed,
        pid := some 7 : CommandExecution }).status = ExecutionStatus.Cancelled) ∧
    cancelExecution true
        { command := cmd0, status := ExecutionStatus.Completed, pid := some 7 } =
      (false,
        { command := cmd0, status := ExecutionStatus.Completed, pid := some 7 }) ∧
    (fun x => (cancelExecution true x).2)^[3]
        { command := cmd0, status := ExecutionStatus.Completed, pid := some 7 } =
      { command := cmd0, status := ExecutionStatus.Completed, pid := some 7 } :=
  ⟨Or.inl rfl,
   (C7_cancel_terminal_noop _ true (Or.inl rfl)).1,
   (C7_cancel_terminal_noop _ true (Or.inl rfl)).2 3⟩

/-- C10: a `close` event reporting a `null` exit code (signal
termination) on a non-cancelled execution records `exitCode = 0` while
the status becomes `Failed`; so `exitCode = 0` does not imply
`Completed`. -/
theorem C10_null_exit_code (t : Nat) (s : RunState)
    (hclosed : s.closed = false) (hcanc : s.exec.cancelled = false) :
    (step t s (Event.close none)).exec.exitCode = some 0 ∧
    (step t s (Event.close none)).exec.status = ExecutionStatus.Failed ∧
    (step t s (Event.close none)).exec.status ≠ ExecutionStatus.Completed := by
  by_cases hauth : checkForAuthError s.exec.stderr <;>
    simp [step, hclosed, hcanc, hauth]

/-- Witness for C10 at the concrete running state `rs0`. -/
theorem C10_witness :
    rs0.closed = false ∧ rs0.exec.cancelled = false ∧
    ((step 5000 rs0 (Event.close none)).exec.exitCode = some 0 ∧
     (step 5000 rs0 (Event.close none)).exec.status = ExecutionStatus.Failed ∧
     (step 5000 rs0 (Event.close none)).exec.status ≠ ExecutionStatus.Completed) :=
  ⟨rfl, rfl, C10_null_exit_code 5000 rs0 rfl rfl⟩

/-- C2 counterexample: with the concrete spec `cmdT` (timeout 5000ms),
the timeout event leaves the execution `Failed`, not `Cancelled`, and
rejects the promise with a timeout `GCloudError` — refuting that a
timed-out execution reaches the `Cancelled` terminal state. -/
theorem C2_counterexample :
    (runCommandTrace cmdT {} 7 [Event.timeout]).1.exec.status =
      ExecutionStatus.Failed ∧
    (runCommandTrace cmdT {} 7 [Event.timeout]).1.exec.status ≠
      ExecutionStatus.Cancelled ∧
    (runCommandTrace cmdT {} 7 [Event.timeout]).1.settled =
      some (Settle.rejected { message := timeoutMessage 5000 }) := by
  refine ⟨by decide, by decide, by decide⟩

/-- C2 (amended): when the timeout fires on a not-yet-settled running
execution, the status becomes `Failed` (never `Cancelled`), the
cancelled flag is untouched, and a `GCloudError` carrying the timeout
message is rejected — i.e. thrown to the caller — rather than the
timeout being recorded as a cancellation. -/
theorem C2_timeout_marks_failed (t : Nat) (s : RunState)
    (hact : s.timeoutActive = true) (hset : s.settled = none) :
    (step t s Event.timeout).exec.status = ExecutionStatus.Failed ∧
    (step t s Event.timeout).exec.status ≠ ExecutionStatus.Cancelled ∧
    (step t s Event.timeout).settled =
      some (Settle.rejected { message := timeoutMessage t }) ∧
    (step t s Event.timeout).exec.cancelled = s.exec.cancelled := by
  simp [step, hact, hset, trySettle]

/-- Witness for the amended C2 at the concrete state `rs0`. -/
theorem C2_witness :
    rs0.timeoutActive = true ∧ rs0.settled = none ∧
    ((step 5000 rs0 Event.timeout).exec.status = ExecutionStatus.Failed ∧
     (step 5000 rs0 Event.timeout).exec.status ≠ ExecutionStatus.Cancelled ∧
     (step 5000 rs0 Event.timeout).settled =
       some (Settle.rejected { message := timeoutMessage 5000 }) ∧
     (step 5000 rs0 Event.timeout).exec.cancelled = rs0.exec.cancelled) :=
  ⟨rfl, rfl, C2_timeout_marks_failed 5000 rs0 rfl rfl⟩

/-- C4 counterexample: for the concrete spec `cmd0` the recorded spawn
call has `shell := true`, refuting that the subprocess is never invoked
through a shell-interpreted command string. -/
theorem C4_counterexample :
    (runCommandTrace cmd0 {} 7 []).2 =
      { cmd := "gcloud", args := ["projects", "list"], shell := true } := by
  decide

/-- C4 (amended): every execution that passes the pre-spawn checks
spawns exactly the call `spawn("gcloud", args, ...)` where `args` is the
flat ordered list obtained from the command string (plus the JSON-format
injection), but with the `shell: true` option set, so the invocation
does go through a shell-interpreted command line. -/
theorem C4_spawn_shape (cmd : GCloudCommand) (d : String → Bool)
    (cfg : GCloudConfig) (pid : Nat) (events : List Event)
    (hpre : jsStartsWith cmd.command "gcloud " = true)
    (hwd : wdMissing d cmd = false) :
    (executeCommandModel cmd true d cfg pid events).spawned =
      some
        { cmd := "gcloud", args := prepareArgs cmd cfg, shell := true,
          cwd := cmd.workingDirectory, envOverrides := cmd.environment } := by
  simp [executeCommandModel, hpre, hwd, runCommandTrace]

/-- Witness for the amended C4 at the concrete spec `cmd0`. -/
theorem C4_witness :
    jsStartsWith cmd0.command "gcloud " = true ∧
    wdMissing (fun _ => true) cmd0 = false ∧
    (executeCommandModel cmd0 true (fun _ => true) {} 7 []).spawned =
      some
        { cmd := "gcloud", args := prepareArgs cmd0 {}, shell := true,
          cwd := cmd0.workingDirectory, envOverrides := cmd0.environment } :=
  ⟨by decide, by decide,
   C4_spawn_shape cmd0 (fun _ => true) {} 7 [] (by decide) (by decide)⟩

/-- A spec supporting JSON output, with no format flag anywhere. -/
def cmdJ : GCloudCommand :=
  { command := "gcloud projects list", args := ["projects", "list"],
    supportsJson := true }

/-- C5 counterexample: for the concrete spec `cmdJ`
(`supportsJson = true`, no format flag in its arguments) under a
configuration that does not prefer JSON output, no format request is
appended at all — refuting that the Executor always appends one for such
specs. -/
theorem C5_counterexample :
    cmdJ.supportsJson = true ∧
    cmdJ.args.any (fun a => jsStartsWith a "--format=") = false ∧
    prepareArgs cmdJ {} = ["projects", "list"] := by
  refine ⟨by decide, by decide, by decide⟩

/-- C5 (amended): the format flag is injected only when the spec
supports JSON *and* either the configuration prefers JSON output or the
spec's declared `args` contain `--format=json`; in that case, if the
parsed argument list has no `--format=` flag, exactly one
`--format=json` is appended, and the construction is idempotent in
general (a second application never appends a second flag). -/
theorem C5_json_injection (cmd : GCloudCommand) (pref : Bool)
    (args : List String)
    (hsup : cmd.supportsJson = true)
    (hreq : pref = true ∨ cmd.args.contains "--format=json" = true)
    (hnof : args.any (fun a => jsStartsWith a "--format=") = false) :
    applyJsonFormat cmd pref args = args ++ ["--format=json"] ∧
    ∀ (cmd2 : GCloudCommand) (p2 : Bool) (a2 : List String),
      applyJsonFormat cmd2 p2 (applyJsonFormat cmd2 p2 a2) =
        applyJsonFormat cmd2 p2 a2 := by
  constructor
  · have hcond :
        (cmd.supportsJson && (pref || cmd.args.contains "--format=json")) = true := by
      rcases hreq with h | h
      · simp only [hsup, h, Bool.true_and, Bool.true_or]
      · simp only [hsup, h, Bool.true_and, Bool.or_true]
    have hnof2 : ¬((args.any fun a => jsStartsWith a "--format=") = true) := by
      simp [hnof]
    unfold applyJsonFormat
    rw [if_pos hcond, if_neg hnof2]
  · intro cmd2 p2 a2
    by_cases hc :
        (cmd2.supportsJson && (p2 || cmd2.args.contains "--format=json")) = true
    · by_cases ha : (a2.any fun a => jsStartsWith a "--format=") = true
      · have e1 : applyJsonFormat cmd2 p2 a2 = a2 := by
          unfold applyJsonFormat
          rw [if_pos hc, if_pos ha]
        rw [e1]
        exact e1
      · have e1 : applyJsonFormat cmd2 p2 a2 = a2 ++ ["--format=json"] := by
          unfold applyJsonFormat
          rw [if_pos hc, if_neg ha]
        have hb : ((a2 ++ ["--format=json"]).any
            fun a => jsStartsWith a "--format=") = true := by
          rw [List.any_append]
          have h2 : (["--format=json"].any
              fun a => jsStartsWith a "--format=") = true := by decide
          rw [h2, Bool.or_true]
        rw [e1]
        unfold applyJsonFormat
        rw [if_pos hc, if_pos hb]
    · have e1 : applyJsonFormat cmd2 p2 a2 = a2 := by
        unfold applyJsonFormat
        rw [if_neg hc]
      rw [e1]
      exact e1

/-- Witness for the amended C5: with JSON output preferred, `cmdJ` gets
exactly one injected flag, and re-application adds nothing. -/
theorem C5_witness :
    cmdJ.supportsJson = true ∧
    (true = true ∨ cmdJ.args.contains "--format=json" = true) ∧
    ["projects", "list"].any (fun a => jsStartsWith a "--format=") = false ∧
    (applyJsonFormat cmdJ true ["projects", "list"] =
       ["projects", "list"] ++ ["--format=json"] ∧
     ∀ (cmd2 : GCloudCommand) (p2 : Bool) (a2 : List String),
       applyJsonFormat cmd2 p2 (applyJsonFormat cmd2 p2 a2) =
         applyJsonFormat cmd2 p2 a2) :=
  ⟨by decide, Or.inl rfl, by decide,
   C5_json_injection cmdJ true ["projects", "list"] (by decide) (Or.inl rfl)
     (by decide)⟩

/-- C3 counterexample: a non-zero exit whose stderr (`some random
failure`) matches no authentication marker yields a `Failed` execution
whose promise is *resolved*: no error object of any kind accompanies
it — refuting that every Failed execution produces exactly one
classified error. -/
theorem C3_counterexample :
    checkForAuthError ["some random failure"] = false ∧
    (runCommandTrace cmd0 {} 7
        [Event.stderrData "some random failure",
         Event.close (some 1)]).1.exec.status = ExecutionStatus.Failed ∧
    (runCommandTrace cmd0 {} 7
        [Event.stderrData "some random failure",
         Event.close (some 1)]).1.settled = some Settle.resolved := by
  refine ⟨by decide, by decide, by decide⟩

/-- C3 (amended): a Failed execution carries at most one error object,
and only in two cases: stderr matching an authentication marker
(case-insensitively) rejects one `GCloudError` with
`authenticationRequired = true` and the two standard login suggestions,
and a timeout rejects one `GCloudError` with the timeout message; any
other non-zero exit resolves the plain `Failed` execution with its raw
stderr and no error object at all. -/
theorem C3_classification (t : Nat) (s : RunState) (c : Int)
    (hclosed : s.closed = false) (hcanc : s.exec.cancelled = false)
    (hset : s.settled = none) (hc : c ≠ 0) :
    (step t s (Event.close (some c))).exec.status = ExecutionStatus.Failed ∧
    (step t s (Event.close (some c))).exec.stderr = s.exec.stderr ∧
    (checkForAuthError s.exec.stderr = true →
      (step t s (Event.close (some c))).settled =
        some (Settle.rejected
          { message := "Authentication required", exitCode := some c,
            stderr := s.exec.stderr, authenticationRequired := true,
            suggestions := authSuggestions })) ∧
    (checkForAuthError s.exec.stderr = false →
      (step t s (Event.close (some c))).settled = some Settle.resolved) ∧
    (s.timeoutActive = true →
      (step t s Event.timeout).settled =
        some (Settle.rejected { message := timeoutMessage t })) := by
  refine ⟨?_, ?_, ?_, ?_, ?_⟩
  · by_cases hauth : checkForAuthError s.exec.stderr = true <;>
      simp [step, hclosed, hcanc, hauth, hc]
  · by_cases hauth : checkForAuthError s.exec.stderr = true <;>
      simp [step, hclosed, hcanc, hauth, hc]
  · intro hauth
    simp [step, hclosed, hcanc, hauth, hc, hset, trySettle]
  · intro hauth
    simp [step, hclosed, hcanc, hauth, hc, hset, trySettle]
  · intro hact
    simp [step, hact, hset, trySettle]

/-- Witness for the amended C3 at the concrete state `rs0` with exit
code 1. -/
theorem C3_witness :
    rs0.closed = false ∧ rs0.exec.cancelled = false ∧ rs0.settled = none ∧
    (1 : Int) ≠ 0 ∧
    ((step 5000 rs0 (Event.close (some 1))).exec.status =
       ExecutionStatus.Failed ∧
     (step 5000 rs0 (Event.close (some 1))).exec.stderr = rs0.exec.stderr ∧
     (checkForAuthError rs0.exec.stderr = true →
       (step 5000 rs0 (Event.close (some 1))).settled =
         some (Settle.rejected
           { message := "Authentication required", exitCode := some 1,
             stderr := rs0.exec.stderr, authenticationRequired := true,
             suggestions := authSuggestions })) ∧
     (checkForAuthError rs0.exec.stderr = false →
       (step 5000 rs0 (Event.close (some 1))).settled =
         some Settle.resolved) ∧
     (rs0.timeoutActive = true →
       (step 5000 rs0 Event.timeout).settled =
         some (Settle.rejected { message := timeoutMessage 5000 }))) :=
  ⟨rfl, rfl, rfl, by decide,
   C3_classification 5000 rs0 1 rfl rfl rfl (by decide)⟩

/-- After the `close` event on a not-yet-closed state, the closed flag
is set, the timer is cleared, and the status is terminal. -/
lemma close_step_flags (t : Nat) (s : RunState) (c : Option Int)
    (h : s.closed = false) :
    (step t s (Event.close c)).closed = true ∧
    (step t s (Event.close c)).timeoutActive = false ∧
    ((step t s (Event.close c)).exec.status = ExecutionStatus.Cancelled ∨
     (step t s (Event.close c)).exec.status = ExecutionStatus.Completed ∨
     (step t s (Event.close c)).exec.status = ExecutionStatus.Failed) := by
  by_cases h1 : s.exec.cancelled = true
  · simp [step, h, h1]
  · by_cases h2 : c = some 0
    · simp [step, h, h1, h2]
    · by_cases h3 : checkForAuthError s.exec.stderr = true <;>
        simp [step, h, h1, h2, h3]

/-- The `close` event appends exactly one status assignment to the ghost
log. -/
lemma close_step_log (t : Nat) (s : RunState) (c : Option Int)
    (h : s.closed = false) :
    (step t s (Event.close c)).statusLog =
      s.statusLog ++ [(step t s (Event.close c)).exec.status] := by
  by_cases h1 : s.exec.cancelled = true
  · simp [step, h, h1]
  · by_cases h2 : c = some 0
    · simp [step, h, h1, h2]
    · by_cases h3 : checkForAuthError s.exec.stderr = true <;>
        simp [step, h, h1, h2, h3]

/-- On a closed state with a cleared timer and a non-`Running` status,
no further event assigns the status field: timeout, cancellation and a
repeated close leave the state untouched, and data events do not extend
the assignment log. -/
lemma step_stable_of_closed (t : Nat) (s2 : RunState) (hc : s2.closed = true)
    (ht : s2.timeoutActive = false)
    (hs : s2.exec.status ≠ ExecutionStatus.Running) :
    step t s2 Event.timeout = s2 ∧
    (∀ k, step t s2 (Event.cancel k) = s2) ∧
    (∀ c2, step t s2 (Event.close c2) = s2) ∧
    (∀ ch, (step t s2 (Event.stdoutData ch)).statusLog = s2.statusLog ∧
           (step t s2 (Event.stderrData ch)).statusLog = s2.statusLog) := by
  refine ⟨?_, ?_, ?_, ?_⟩
  · simp [step, ht]
  · intro k
    simp [step, cancelExecution, hs]
  · intro c2
    simp [step, hc]
  · intro ch
    exact ⟨rfl, rfl⟩

/-- C8 counterexample: in the concrete trace where the timeout fires and
the process then exits with code 0, `execution.status` is assigned a
terminal value twice — `Failed` by the timeout handler and then
`Completed` by the close handler — refuting that a terminal state is
reached exactly once. -/
theorem C8_counterexample :
    (runCommandTrace cmdT {} 7
        [Event.timeout, Event.close (some 0)]).1.statusLog =
      [ExecutionStatus.Running, ExecutionStatus.Failed,
       ExecutionStatus.Completed] := by
  decide

/-- C8 (amended): the status field can be assigned a terminal value more
than once before the `close` event (a timeout assigns `Failed`, and the
close handler then unconditionally assigns again, possibly a different
terminal value); only once the `close` event has fired is the status
stable: close sets a terminal status in exactly one further assignment,
and afterwards neither the timeout, nor cancellation, nor a repeated
close, nor data events assign the status field again. -/
theorem C8_terminal_stability (t : Nat) (s s2 : RunState) (c : Option Int)
    (h : s.closed = false) (hs2 : s2 = step t s (Event.close c)) :
    (s2.exec.status = ExecutionStatus.Cancelled ∨
     s2.exec.status = ExecutionStatus.Completed ∨
     s2.exec.status = ExecutionStatus.Failed) ∧
    s2.statusLog = s.statusLog ++ [s2.exec.status] ∧
    step t s2 Event.timeout = s2 ∧
    (∀ k, step t s2 (Event.cancel k) = s2) ∧
    (∀ c2, step t s2 (Event.close c2) = s2) ∧
    (∀ ch, (step t s2 (Event.stdoutData ch)).statusLog = s2.statusLog ∧
           (step t s2 (Event.stderrData ch)).statusLog = s2.statusLog) := by
  subst hs2
  obtain ⟨hcl, hta, hterm⟩ := close_step_flags t s c h
  have hne : (step t s (Event.close c)).exec.status ≠
      ExecutionStatus.Running := by
    rcases hterm with h' | h' | h' <;> simp [h']
  obtain ⟨st, sc, scl, sd⟩ := step_stable_of_closed t _ hcl hta hne
  exact ⟨hterm, close_step_log t s c h, st, sc, scl, sd⟩

/-- Witness for the amended C8 at the concrete state `rs0` closed with
exit code 0. -/
theorem C8_witness :
    rs0.closed = false ∧
    (((step 5000 rs0 (Event.close (some 0))).exec.status =
        ExecutionStatus.Cancelled ∨
      (step 5000 rs0 (Event.close (some 0))).exec.status =
        ExecutionStatus.Completed ∨
      (step 5000 rs0 (Event.close (some 0))).exec.status =
        ExecutionStatus.Failed) ∧
     (step 5000 rs0 (Event.close (some 0))).statusLog =
       rs0.statusLog ++ [(step 5000 rs0 (Event.close (some 0))).exec.status] ∧
     step 5000 (step 5000 rs0 (Event.close (some 0))) Event.timeout =
       step 5000 rs0 (Event.close (some 0)) ∧
     (∀ k, step 5000 (step 5000 rs0 (Event.close (some 0))) (Event.cancel k) =
       step 5000 rs0 (Event.close (some 0))) ∧
     (∀ c2, step 5000 (step 5000 rs0 (Event.close (some 0))) (Event.close c2) =
       step 5000 rs0 (Event.close (some 0))) ∧
     (∀ ch, (step 5000 (step 5000 rs0 (Event.close (some 0)))
               (Event.stdoutData ch)).statusLog =
              (step 5000 rs0 (Event.close (some 0))).statusLog ∧
            (step 5000 (step 5000 rs0 (Event.close (some 0)))
               (Event.stderrData ch)).statusLog =
              (step 5000 rs0 (Event.close (some 0))).statusLog)) :=
  ⟨rfl, C8_terminal_stability 5000 rs0 _ (some 0) rfl rfl⟩

/-- C1 counterexample: for the concrete valid spec `cmd0`, a process
error arriving after the subprocess was spawned makes `executeCommand`
throw a `GCloudError` — the failure is not captured inside a returned
Execution record, refuting the no-throw-after-spawn property. -/
theorem C1_counterexample :
    (executeCommandModel cmd0 true (fun _ => true) {} 7
        [Event.procError "boom"]).outcome =
      ExecOutcome.thrown { message := "Process error: boom" } ∧
    (executeCommandModel cmd0 true (fun _ => true) {} 7
        [Event.procError "boom"]).spawned.isSome = true := by
  refine ⟨by decide, by decide⟩

/-- C1 (amended): `executeCommand` throws not only for pre-condition
violations but also for three post-spawn failures — a process error
event, a timeout, and an authentication-classified non-zero exit — each
rejecting a `GCloudError` that is rethrown to the caller; only a
non-zero exit without authentication markers and a successful exit are
returned inside the Execution record. -/
theorem C1_throw_boundary (cmd : GCloudCommand) (d : String → Bool)
    (cfg : GCloudConfig) (pid : Nat) (m ch : String) (c : Int)
    (hpre : jsStartsWith cmd.command "gcloud " = true)
    (hwd : wdMissing d cmd = false) (hc : c ≠ 0) :
    ((executeCommandModel cmd true d cfg pid [Event.procError m]).outcome =
      ExecOutcome.thrown { message := "Process error: " ++ m }) ∧
    ((executeCommandModel cmd true d cfg pid [Event.timeout]).outcome =
      ExecOutcome.thrown { message := timeoutMessage (effTimeout cmd cfg) }) ∧
    (checkForAuthError (splitLines ch) = true →
      (executeCommandModel cmd true d cfg pid
          [Event.stderrData ch, Event.close (some c)]).outcome =
        ExecOutcome.thrown
          { message := "Authentication required", exitCode := some c,
            stderr := splitLines ch, authenticationRequired := true,
            suggestions := authSuggestions }) ∧
    (checkForAuthError (splitLines ch) = false →
      ∃ e, (executeCommandModel cmd true d cfg pid
          [Event.stderrData ch, Event.close (some c)]).outcome =
        ExecOutcome.returned e ∧ e.status = ExecutionStatus.Failed ∧
        e.stderr = splitLines ch) ∧
    (∃ e, (executeCommandModel cmd true d cfg pid
        [Event.close (some 0)]).outcome =
      ExecOutcome.returned e ∧ e.status = ExecutionStatus.Completed) := by
  refine ⟨?_, ?_, ?_, ?_, ?_⟩
  · simp [executeCommandModel, hpre, hwd, runCommandTrace, step, trySettle]
  · simp [executeCommandModel, hpre, hwd, runCommandTrace, step, trySettle]
  · intro hauth
    simp [executeCommandModel, hpre, hwd, runCommandTrace, step, trySettle,
      initExecution, hauth, hc]
  · intro hauth
    refine ⟨(runCommandTrace cmd cfg pid
        [Event.stderrData ch, Event.close (some c)]).1.exec, ?_, ?_, ?_⟩ <;>
      simp [executeCommandModel, hpre, hwd, runCommandTrace, step, trySettle,
        initExecution, hauth, hc]
  · refine ⟨(runCommandTrace cmd cfg pid [Event.close (some 0)]).1.exec,
      ?_, ?_⟩ <;>
      simp [executeCommandModel, hpre, hwd, runCommandTrace, step, trySettle,
        initExecution]

/-- Witness for the amended C1 at the concrete spec `cmd0` with a
process error `boom`, an authentication stderr chunk, and exit code 1. -/
theorem C1_witness :
    jsStartsWith cmd0.command "gcloud " = true ∧
    wdMissing (fun _ => true) cmd0 = false ∧
    (1 : Int) ≠ 0 ∧
    (((executeCommandModel cmd0 true (fun _ => true) {} 7
          [Event.procError "boom"]).outcome =
        ExecOutcome.thrown { message := "Process error: " ++ "boom" }) ∧
     ((executeCommandModel cmd0 true (fun _ => true) {} 7
          [Event.timeout]).outcome =
        ExecOutcome.thrown { message := timeoutMessage (effTimeout cmd0 {}) }) ∧
     (checkForAuthError (splitLines "ERROR: not authenticated") = true →
       (executeCommandModel cmd0 true (fun _ => true) {} 7
           [Event.stderrData "ERROR: not authenticated",
            Event.close (some 1)]).outcome =
         ExecOutcome.thrown
           { message := "Authentication required", exitCode := some 1,
             stderr := splitLines "ERROR: not authenticated",
             authenticationRequired := true,
             suggestions := authSuggestions }) ∧
     (checkForAuthError (splitLines "ERROR: not authenticated") = false →
       ∃ e, (executeCommandModel cmd0 true (fun _ => true) {} 7
           [Event.stderrData "ERROR: not authenticated",
            Event.close (some 1)]).outcome =
         ExecOutcome.returned e ∧ e.status = ExecutionStatus.Failed ∧
         e.stderr = splitLines "ERROR: not authenticated") ∧
     (∃ e, (executeCommandModel cmd0 true (fun _ => true) {} 7
         [Event.close (some 0)]).outcome =
       ExecOutcome.returned e ∧ e.status = ExecutionStatus.Completed)) :=
  ⟨by decide, by decide, by decide,
   C1_throw_boundary cmd0 (fun _ => true) {} 7 "boom"
     "ERROR: not authenticated" 1 (by decide) (by decide) (by decide)⟩

/-- A concrete oracle for `JSON.parse` of the credential list: the text
`[acct]` stands for a JSON array with one active account. -/
def parseAccountsOne : String → Option (List Account) :=
  fun s =>
    if s = "[acct]" then some [{ account := "a@example.com", status := "ACTIVE" }]
    else none

/-- A concrete oracle for `JSON.parse` of the project output that always
fails. -/
def parseProjectNone : String → Option String := fun _ => none

/-- A completed credential-list execution whose stdout carries `[acct]`. -/
def execAuthOk : CommandExecution :=
  { command := cmd0, status := ExecutionStatus.Completed,
    stdout := ["[acct]"] }

/-- A failed default-project execution. -/
def execProjFail : CommandExecution :=
  { command := cmd0, status := ExecutionStatus.Failed }

/-- C6 counterexample: when the credential-list step succeeds but the
default-project step returns a Failed execution, the probe does *not*
degrade to the not-authenticated snapshot: it reports
`isAuthenticated = true` with populated credential lists and only
`defaultProject` unset — a partially populated result, refuting the
claim for the second diagnostic step. -/
theorem C6_counterexample :
    execProjFail.status ≠ ExecutionStatus.Completed ∧
    getAuthStatusModel parseAccountsOne parseProjectNone
        (Except.ok execAuthOk) (Except.ok execProjFail) =
      { isAuthenticated := true, activeAccount := some "a@example.com",
        availableAccounts := ["a@example.com"], defaultProject := none } ∧
    getAuthStatusModel parseAccountsOne parseProjectNone
        (Except.ok execAuthOk) (Except.ok execProjFail) ≠ notAuthSnapshot := by
  refine ⟨by decide, by decide, by decide⟩

/-- C6 (amended): the probe never throws (it totally returns a
snapshot); any thrown error from either diagnostic call, and any
run-or-parse failure of representing the *first* (credential-list) step,
degrade to the not-authenticated snapshot with empty credential lists;
but a non-thrown failure of the *second* (default resource-context)
step only leaves `defaultProject` unset while the credential fields
remain populated. -/
theorem C6_probe_degradation (pa : String → Option (List Account))
    (pp : String → Option String) (o1 o2 : Except GCloudError CommandExecution)
    (err : GCloudError) (e1 e2 : CommandExecution) (accounts : List Account) :
    (getAuthStatusModel pa pp (Except.error err) o2 = notAuthSnapshot) ∧
    (e1.status ≠ ExecutionStatus.Completed →
      getAuthStatusModel pa pp (Except.ok e1) o2 = notAuthSnapshot) ∧
    (e1.status = ExecutionStatus.Completed →
     pa (String.join e1.stdout) = none →
      getAuthStatusModel pa pp (Except.ok e1) o2 = notAuthSnapshot) ∧
    (getAuthStatusModel pa pp o1 (Except.error err) = notAuthSnapshot) ∧
    (e1.status = ExecutionStatus.Completed →
     pa (String.join e1.stdout) = some accounts →
     e2.status ≠ ExecutionStatus.Completed →
      getAuthStatusModel pa pp (Except.ok e1) (Except.ok e2) =
        { isAuthenticated := decide (accounts.length > 0),
          activeAccount :=
            (accounts.find? (·.status = "ACTIVE")).map (·.account),
          availableAccounts := accounts.map (·.account),
          defaultProject := none }) := by
  refine ⟨rfl, ?_, ?_, ?_, ?_⟩
  · intro h1
    simp [getAuthStatusModel, h1]
  · intro h1 h2
    simp [getAuthStatusModel, h1, h2]
  · rcases o1 with err1 | e
    · rfl
    · by_cases h1 : e.status = ExecutionStatus.Completed
      · cases hpa : pa (String.join e.stdout) with
        | none => simp [getAuthStatusModel, h1, hpa]
        | some accs => simp [getAuthStatusModel, h1, hpa]
      · simp [getAuthStatusModel, h1]
  · intro h1 h2 h3
    simp [getAuthStatusModel, h1, h2, h3]

/-- Witness for the amended C6 at the concrete oracles and executions of
the counterexample. -/
theorem C6_witness :
    execProjFail.status ≠ ExecutionStatus.Completed ∧
    execAuthOk.status = ExecutionStatus.Completed ∧
    ((getAuthStatusModel parseAccountsOne parseProjectNone
        (Except.error prefixError) (Except.ok execProjFail) =
        notAuthSnapshot) ∧
     (execAuthOk.status ≠ ExecutionStatus.Completed →
       getAuthStatusModel parseAccountsOne parseProjectNone
         (Except.ok execAuthOk) (Except.ok execProjFail) = notAuthSnapshot) ∧
     (execAuthOk.status = ExecutionStatus.Completed →
      parseAccountsOne (String.join execAuthOk.stdout) = none →
       getAuthStatusModel parseAccountsOne parseProjectNone
         (Except.ok execAuthOk) (Except.ok execProjFail) = notAuthSnapshot) ∧
     (getAuthStatusModel parseAccountsOne parseProjectNone
        (Except.ok execAuthOk) (Except.error prefixError) =
        notAuthSnapshot) ∧
     (execAuthOk.status = ExecutionStatus.Completed →
      parseAccountsOne (String.join execAuthOk.stdout) =
        some [{ account := "a@example.com", status := "ACTIVE" }] →
      execProjFail.status ≠ ExecutionStatus.Completed →
       getAuthStatusModel parseAccountsOne parseProjectNone
           (Except.ok execAuthOk) (Except.ok execProjFail) =
         { isAuthenticated :=
             decide ([{ account := "a@example.com",
                        status := "ACTIVE" : Account }].length > 0),
           activeAccount :=
             ([{ account := "a@example.com", status := "ACTIVE" :
                  Account }].find? (·.status = "ACTIVE")).map (·.account),
           availableAccounts :=
             [{ account := "a@example.com", status := "ACTIVE" :
                 Account }].map (·.account),
           defaultProject := none })) :=
  ⟨by decide, by decide,
   C6_probe_degradation parseAccountsOne parseProjectNone
     (Except.ok execAuthOk) (Except.ok execProjFail) prefixError
     execAuthOk execProjFail
     [{ account := "a@example.com", status := "ACTIVE" }]⟩
